import Mathlib

/-!
Shallow embedding of the research-aggregation pipeline of `src/app.py`
(classes `ArxivAPI`, `SemanticScholarAPI`, `GroqAI`, `ResearchAPI`, and the
citation portion of `display_insights_panel`).

External I/O (the arXiv HTTP feed, the Semantic Scholar HTTP lookup, the
Groq chat-completion backend) is modelled by passing the observed responses
as explicit inputs; Python exceptions are modelled by `Option`
short-circuiting exactly where the source wraps code in `try`/`except`.
-/

namespace App

/-- One `<entry>` of the arXiv Atom feed, as consumed by
`ArxivAPI.search_papers` (src/app.py:103-113).  Each consumed field is
`Option`al: `none` models a missing element, whose `.text` access raises
`AttributeError` in the source.  Each element of `authors` models one
`<author>` element's `<name>` child. -/
structure Entry where
  title : Option String
  authors : List (Option String)
  summary : Option String
  published : Option String
  idUrl : Option String
deriving Repr, DecidableEq

/-- A paper record as built by `ArxivAPI.search_papers` (src/app.py:104-112). -/
structure Paper where
  title : String
  authors : List String
  abstract : String
  published : String
  url : String
  arxiv_id : String
deriving Repr, DecidableEq

/-- Python `str.strip()`: the string with leading and trailing whitespace
removed. -/
def pyStrip (s : String) : String :=
  String.mk
    (((s.data.dropWhile Char.isWhitespace).reverse.dropWhile
        Char.isWhitespace).reverse)

/-- Python slicing `s[:n]`: the first `n` characters. -/
def pyTake (s : String) (n : Nat) : String :=
  String.mk (s.data.take n)

/-- Helper for `pySplit`: accumulates the current piece (reversed). -/
def pySplitAux (sep : Char) : List Char → List Char → List String
  | [], acc => [String.mk acc.reverse]
  | c :: cs, acc =>
    if c = sep then String.mk acc.reverse :: pySplitAux sep cs []
    else pySplitAux sep cs (c :: acc)

/-- Python `s.split(sep)` for a one-character separator: the pieces
between occurrences of `sep`, empty pieces kept. -/
def pySplit (sep : Char) (s : String) : List String :=
  pySplitAux sep s.data []

/-- `url.split("/")[-1]` of src/app.py:111: the last `/`-separated segment. -/
def lastSegment (s : String) : String :=
  (pySplit '/' s).getLastD ""

/-- Extraction of one feed entry into a paper dict (src/app.py:104-112);
`none` models the `AttributeError` raised when a consumed element is
missing.  `title`/`summary` are stripped, `published` truncated to its
first 10 characters, the arXiv id taken from the `<id>` URL. -/
def extractEntry (e : Entry) : Option Paper := do
  let t ← e.title
  let as ← e.authors.mapM id
  let s ← e.summary
  let p ← e.published
  let u ← e.idUrl
  pure { title := pyStrip t, authors := as, abstract := pyStrip s,
         published := pyTake p 10, url := u, arxiv_id := lastSegment u }

/-- The per-entry loop of src/app.py:102-113: entries are processed in
order and the first missing field raises, discarding everything. -/
def extractAll : List Entry → Option (List Paper)
  | [] => some []
  | e :: es => do
    let p ← extractEntry e
    let ps ← extractAll es
    pure (p :: ps)

/-- What the arXiv search request observed: a transport/HTTP/parse failure
(`requests` exception, `raise_for_status`, or `ET.fromstring` error), or a
successfully parsed feed with its list of entries. -/
inductive FeedResponse where
  | transportError
  | ok (entries : List Entry)
deriving Repr, DecidableEq

namespace ArxivAPI

/-- `ArxivAPI.search_papers` (src/app.py:84-119).  The single
`try`/`except` wraps the whole request *and* the whole per-entry loop: any
exception — including an `AttributeError` from one malformed entry —
reaches the batch-level handler, which reports an error and returns `[]`. -/
def search_papers (resp : FeedResponse) : List Paper :=
  match resp with
  | .transportError => []
  | .ok entries =>
    match extractAll entries with
    | some papers => papers
    | none => []

end ArxivAPI

/-- One related work (an element of the Semantic Scholar `references`
array); `title` is `none` when the source omits it
(`work.get('title', 'Unknown Title')` at src/app.py:425,604). -/
structure RelatedWork where
  title : Option String
deriving Repr, DecidableEq

/-- The fields of the Semantic Scholar paper record consumed by the
pipeline; each is `Option`al because the source reads them with
`.get(..., default)` / `in` checks. -/
structure PaperDetails where
  citationCount : Option Int
  referenceCount : Option Int
  references : Option (List RelatedWork)
deriving Repr, DecidableEq

/-- What the Semantic Scholar lookup observed: a transport error (timeout,
connection failure: `requests.get` raises), or an HTTP response with a
status code and a body (`none` body models unparseable JSON, whose
`response.json()` raises). -/
inductive HttpResult where
  | transportError
  | response (status : Nat) (body : Option PaperDetails)
deriving Repr, DecidableEq

namespace SemanticScholarAPI

/-- `SemanticScholarAPI.get_paper_details` (src/app.py:125-141): returns
the parsed body on HTTP 200, and the empty dict (modelled `none`) on any
non-200 status or exception — never raises. -/
def get_paper_details (r : HttpResult) : Option PaperDetails :=
  match r with
  | .transportError => none
  | .response status body => if status = 200 then body else none

/-- `SemanticScholarAPI.get_related_works` (src/app.py:144-152): reuses
`get_paper_details`; when the lookup produced a record containing a
`references` key, returns its first 5 entries, else `[]` — never raises. -/
def get_related_works (r : HttpResult) : List RelatedWork :=
  match get_paper_details r with
  | some d =>
    match d.references with
    | some refs => refs.take 5
    | none => []
  | none => []

end SemanticScholarAPI

/-- Outcome of one Groq chat-completion call as observed by a `GroqAI`
method: the client was unavailable (missing `GROQ_API_KEY`), the call
returned a completion text, or the call raised with a message. -/
inductive GroqOutcome where
  | noClient
  | ok (content : String)
  | error (msg : String)
deriving Repr, DecidableEq

namespace GroqAI

/-- `GroqAI.summarize_papers` (src/app.py:158-184): completion text on
success; sentinel error strings on missing client or exception. -/
def summarize_papers (o : GroqOutcome) : String :=
  match o with
  | .noClient => "Error: Groq client not available"
  | .ok c => c
  | .error e => "Error generating summary: " ++ e

/-- `GroqAI.explain_like_15` (src/app.py:187-213). -/
def explain_like_15 (o : GroqOutcome) : String :=
  match o with
  | .noClient => "Error: Groq client not available"
  | .ok c => c
  | .error e => "Error generating explanation: " ++ e

/-- The keyword post-processing of src/app.py:239-240:
`content.split(",")`, then keep `kw.strip()` for each piece whose strip is
non-empty. -/
def splitKeywords (s : String) : List String :=
  (pySplit ',' s).filterMap fun kw =>
    let t := pyStrip kw
    if t = "" then none else some t

/-- `GroqAI.extract_keywords` (src/app.py:216-242): parses the completion
text via `splitKeywords`; degrades to `[]` on missing client or
exception. -/
def extract_keywords (o : GroqOutcome) : List String :=
  match o with
  | .noClient => []
  | .ok c => splitKeywords c
  | .error _ => []

/-- `GroqAI.analyze_trends` (src/app.py:245-275). -/
def analyze_trends (o : GroqOutcome) : String :=
  match o with
  | .noClient => "Error: Groq client not available"
  | .ok c => c
  | .error e => "Error analyzing trends: " ++ e

/-- `GroqAI.identify_challenges` (src/app.py:278-308). -/
def identify_challenges (o : GroqOutcome) : String :=
  match o with
  | .noClient => "Error: Groq client not available"
  | .ok c => c
  | .error e => "Error identifying challenges: " ++ e

end GroqAI

/-- The `citation_counts` dict built by `ResearchAPI.search_papers`
(src/app.py:339-350): always has `citations` and `references`; the
`status` key is present exactly in the fallback (unavailable) branch. -/
structure CitationCounts where
  citations : Int
  references : Int
  status : Option String
deriving Repr, DecidableEq

/-- src/app.py:339-350: from a truthy Semantic Scholar record, read
`citationCount`/`referenceCount` with default 0 and no `status` key; from
the empty record (failed/404 lookup), fall back to zeros *plus* the
`status = "Semantic Scholar unavailable"` marker. -/
def mkCitationCounts (details : Option PaperDetails) : CitationCounts :=
  match details with
  | some d =>
    { citations := d.citationCount.getD 0,
      references := d.referenceCount.getD 0,
      status := none }
  | none =>
    { citations := 0, references := 0,
      status := some "Semantic Scholar unavailable" }

/-- The dict returned by `ResearchAPI.search_papers` on success
(src/app.py:359-368): exactly these eight keys, nothing optional. -/
structure SearchResult where
  papers : List Paper
  ai_summary : String
  explain_like_15 : String
  keywords : List String
  related_works : List RelatedWork
  citation_counts : CitationCounts
  trends : String
  open_challenges : String
deriving Repr, DecidableEq

/-- The external responses one invocation of `ResearchAPI.search_papers`
would observe: the arXiv feed, the Semantic Scholar lookup for the first
paper's id, and the five independent Groq completions. -/
structure Env where
  arxivResp : FeedResponse
  semanticResp : HttpResult
  summaryOutcome : GroqOutcome
  explainOutcome : GroqOutcome
  keywordsOutcome : GroqOutcome
  trendsOutcome : GroqOutcome
  challengesOutcome : GroqOutcome
deriving Repr, DecidableEq

/-- Instrumentation of one `ResearchAPI.search_papers` invocation: how
many arXiv search requests, Semantic Scholar HTTP lookups and Groq
completion calls were issued, and which `st.error` messages
`ResearchAPI.search_papers` itself reported. -/
structure Trace where
  arxivCalls : Nat
  semanticCalls : Nat
  groqCalls : Nat
  errors : List String
deriving Repr, DecidableEq

namespace ResearchAPI

/-- `ResearchAPI.search_papers` (src/app.py:314-372) with its observable
call trace.  `query = ""` is Python's falsy `not query` guard: error and
`None` before any external call.  An empty paper list: error and `None`
after the single arXiv call, before any Semantic Scholar or Groq call.
Otherwise both Semantic Scholar entry points are invoked (each performing
one HTTP lookup of the first paper's id, hence 2 lookups) and the five
Groq analyses run, and the eight-field result dict is returned. -/
def search_papers (query : String) (env : Env) : Option SearchResult × Trace :=
  if query = "" then
    (none, ⟨0, 0, 0, ["Query is required"]⟩)
  else
    let papers := ArxivAPI.search_papers env.arxivResp
    if papers = [] then
      (none, ⟨1, 0, 0, ["No papers found for the given query"]⟩)
    else
      let paper_details := SemanticScholarAPI.get_paper_details env.semanticResp
      let related_works := SemanticScholarAPI.get_related_works env.semanticResp
      let result : SearchResult :=
        { papers := papers,
          ai_summary := GroqAI.summarize_papers env.summaryOutcome,
          explain_like_15 := GroqAI.explain_like_15 env.explainOutcome,
          keywords := GroqAI.extract_keywords env.keywordsOutcome,
          related_works := related_works,
          citation_counts := mkCitationCounts paper_details,
          trends := GroqAI.analyze_trends env.trendsOutcome,
          open_challenges := GroqAI.identify_challenges env.challengesOutcome }
      (some result, ⟨1, 2, 5, []⟩)

/-- Python `query.replace(' ', '_')` (src/app.py:429): every space
character becomes an underscore. -/
def replaceSpaces (s : String) : String :=
  String.mk (s.data.map fun c => if c = ' ' then '_' else c)

/-- One numbered paper section of the export document
(src/app.py:385-397). -/
def paperSection (i : Nat) (p : Paper) : String :=
  "### " ++ toString i ++ ". " ++ p.title ++ "\n\n**Authors:** "
    ++ String.intercalate ", " p.authors
    ++ "\n**Published:** " ++ p.published
    ++ "\n**URL:** " ++ p.url
    ++ "\n\n**Abstract:**\n" ++ p.abstract
    ++ "\n\n---\n\n"

/-- The `enumerate(papers, 1)` loop of src/app.py:385. -/
def paperSections : Nat → List Paper → String
  | _, [] => ""
  | i, p :: ps => paperSection i p ++ paperSections (i + 1) ps

/-- One bullet of the related-works list (src/app.py:424-425), with the
`'Unknown Title'` fallback. -/
def relatedLine (w : RelatedWork) : String :=
  "- " ++ w.title.getD "Unknown Title" ++ "\n"

/-- The markdown document assembled by `ResearchAPI.export_results`
(src/app.py:379-425), a pure function of the query and the result dict. -/
def exportContent (query : String) (sr : SearchResult) : String :=
  "# Research Summary: " ++ query
    ++ "\n\n## Papers Found (" ++ toString sr.papers.length ++ ")\n\n"
    ++ paperSections 1 sr.papers
    ++ "\n## AI Summary\n\n" ++ sr.ai_summary
    ++ "\n\n## Explain Like I\x27m 15\n\n" ++ sr.explain_like_15
    ++ "\n\n## Keywords\n\n" ++ String.intercalate ", " sr.keywords
    ++ "\n\n## Trends & Insights\n\n" ++ sr.trends
    ++ "\n\n## Open Challenges\n\n" ++ sr.open_challenges
    ++ "\n\n## Related Works\n\n"
    ++ String.join ((sr.related_works.take 5).map relatedLine)

/-- `ResearchAPI.export_results` (src/app.py:375-434): the markdown
content and the suggested filename
`research_summary_<query with spaces underscored>.md`.  It reads only its
two arguments — no HTTP client, no Groq client, no ambient state — which
the embedding reflects by giving it no `Env` parameter. -/
def export_results (query : String) (sr : SearchResult) : String × String :=
  (exportContent query sr,
   "research_summary_" ++ replaceSpaces query ++ ".md")

end ResearchAPI

/-- What the citation block of `display_insights_panel`
(src/app.py:477-492) shows for a `citation_counts` dict: the two
`st.metric` values (`.get` with default 0) and whether the
`'Semantic Scholar unavailable'` info notice appears. -/
structure CitationPanelRender where
  citationsMetric : Int
  referencesMetric : Int
  unavailableNotice : Bool
deriving Repr, DecidableEq

/-- The rendering rule of src/app.py:482-492. -/
def renderCitationPanel (cc : CitationCounts) : CitationPanelRender :=
  { citationsMetric := cc.citations,
    referencesMetric := cc.references,
    unavailableNotice := cc.status = some "Semantic Scholar unavailable" }

/-- A Semantic Scholar lookup failed when the request raised or the
response status was not 200 (e.g. 404 for an unknown identifier). -/
def lookupFails : HttpResult → Prop
  | .transportError => True
  | .response status _ => status ≠ 200

/-! Concrete fixtures used by witnesses. -/

/-- A well-formed sample feed entry. -/
def okEntry : Entry :=
  { title := some "Attention Is All You Need",
    authors := [some "Ashish Vaswani"],
    summary := some "We propose a new architecture.",
    published := some "2017-06-12T00:00:00Z",
    idUrl := some "http://arxiv.org/abs/1706.03762v7" }

/-- `okEntry` with its `<title>` element missing. -/
def badEntry : Entry := { okEntry with title := none }

/-- The paper extracted from `okEntry`. -/
def okPaper : Paper :=
  { title := "Attention Is All You Need",
    authors := ["Ashish Vaswani"],
    abstract := "We propose a new architecture.",
    published := "2017-06-12",
    url := "http://arxiv.org/abs/1706.03762v7",
    arxiv_id := "1706.03762v7" }

/-- An environment in which every external call succeeds. -/
def okEnv : Env :=
  { arxivResp := .ok [okEntry],
    semanticResp := .response 200
      (some { citationCount := some 120000, referenceCount := some 38,
              references := some [{ title := some "Neural Machine Translation" }] }),
    summaryOutcome := .ok "A summary.",
    explainOutcome := .ok "Simple words.",
    keywordsOutcome := .ok "attention, transformers",
    trendsOutcome := .ok "Trends.",
    challengesOutcome := .ok "Challenges." }

/-- An environment in which every external call fails. -/
def failEnv : Env :=
  { arxivResp := .transportError,
    semanticResp := .transportError,
    summaryOutcome := .noClient,
    explainOutcome := .noClient,
    keywordsOutcome := .noClient,
    trendsOutcome := .noClient,
    challengesOutcome := .noClient }

/-- `okEnv` with only the summarization call failing. -/
def degradedEnv : Env := { okEnv with summaryOutcome := .error "Request timed out" }

/-- The result dict `ResearchAPI.search_papers "transformers" okEnv`
produces. -/
def okSearchResult : SearchResult :=
  { papers := [okPaper],
    ai_summary := "A summary.",
    explain_like_15 := "Simple words.",
    keywords := ["attention", "transformers"],
    related_works := [{ title := some "Neural Machine Translation" }],
    citation_counts := { citations := 120000, references := 38, status := none },
    trends := "Trends.",
    open_challenges := "Challenges." }

/-- A sample result dict for the export fixtures. -/
def sampleResult : SearchResult :=
  { papers := [okPaper],
    ai_summary := "A summary.",
    explain_like_15 := "Simple words.",
    keywords := ["attention", "transformers"],
    related_works := [{ title := some "Neural Machine Translation" }, { title := none }],
    citation_counts := { citations := 120000, references := 38, status := none },
    trends := "Trends.",
    open_challenges := "Challenges." }

/-! Helper lemmas. -/

/-- The keyword post-processing is: strip every piece, keep the non-empty
ones, in order. -/
theorem keywords_filterMap_eq (l : List String) :
    (l.filterMap fun kw =>
      let t := pyStrip kw
      if t = "" then none else some t)
      = (l.map pyStrip).filter fun t => t != "" := by
  induction l with
  | nil => rfl
  | cons kw l ih =>
    by_cases h : pyStrip kw = ""
    · simp [List.filterMap_cons, List.filter_cons, h, ih]
    · simp [List.filterMap_cons, List.filter_cons, h, ih]

/-- A successful traversal of the entry loop yields one paper per entry. -/
theorem extractAll_length {l : List Entry} {ps : List Paper}
    (h : extractAll l = some ps) : ps.length = l.length := by
  induction l generalizing ps with
  | nil =>
    simp [extractAll] at h
    simp [← h]
  | cons e es ih =>
    cases hp : extractEntry e with
    | none => simp [extractAll, hp] at h
    | some p =>
      cases hps : extractAll es with
      | none => simp [extractAll, hp, hps] at h
      | some qs =>
        simp [extractAll, hp, hps] at h
        simp [← h, ih hps]

/-- One failing entry anywhere in the batch fails the whole traversal. -/
theorem extractAll_eq_none {l : List Entry} {e : Entry}
    (hmem : e ∈ l) (he : extractEntry e = none) : extractAll l = none := by
  induction l with
  | nil => cases hmem
  | cons a as ih =>
    cases hmem with
    | head => simp [extractAll, he]
    | tail _ hmem =>
      cases ha : extractEntry a with
      | none => simp [extractAll, ha]
      | some p => simp [extractAll, ha, ih hmem]

/-- On the success path (non-empty query, non-empty paper list), the
pipeline returns exactly the eight-field dict of src/app.py:359-368. -/
theorem search_papers_success (q : String) (env : Env) (hq : q ≠ "")
    (hp : ArxivAPI.search_papers env.arxivResp ≠ []) :
    ResearchAPI.search_papers q env
      = (some
          { papers := ArxivAPI.search_papers env.arxivResp,
            ai_summary := GroqAI.summarize_papers env.summaryOutcome,
            explain_like_15 := GroqAI.explain_like_15 env.explainOutcome,
            keywords := GroqAI.extract_keywords env.keywordsOutcome,
            related_works := SemanticScholarAPI.get_related_works env.semanticResp,
            citation_counts :=
              mkCitationCounts (SemanticScholarAPI.get_paper_details env.semanticResp),
            trends := GroqAI.analyze_trends env.trendsOutcome,
            open_challenges := GroqAI.identify_challenges env.challengesOutcome },
         ⟨1, 2, 5, []⟩) := by
  simp [ResearchAPI.search_papers, hq, hp]

/-! Claim theorems. -/

/-- Claim C1, counterexample.  The claim says an unavailable enrichment
lookup is never rendered as `citationCount == 0`, but the insights panel's
Citations metric (src/app.py:483-484) shows exactly 0 for the fallback
`citation_counts` dict of a failed lookup — the same metric value as for a
paper whose Semantic Scholar record reports genuinely zero citations. -/
theorem citation_unavailable_metric_renders_zero :
    (renderCitationPanel (mkCitationCounts none)).citationsMetric = 0
      ∧ (renderCitationPanel (mkCitationCounts none)).citationsMetric
          = (renderCitationPanel (mkCitationCounts
              (some { citationCount := some 0, referenceCount := some 0,
                      references := some [] }))).citationsMetric := by
  decide

/-- Claim C1, amended.  The `citation_counts` dict of a failed lookup
carries `status = "Semantic Scholar unavailable"` (src/app.py:345-350),
which no successful lookup produces, so the bundle data is distinguishable
from a genuine zero-citation record, and the insights panel shows an
unavailability notice exactly in the failed case (src/app.py:489-492);
the Citations metric itself, however, renders 0 in the failed case. -/
theorem citation_unavailable_distinguishable (d : PaperDetails) :
    mkCitationCounts none ≠ mkCitationCounts (some d)
      ∧ (renderCitationPanel (mkCitationCounts none)).unavailableNotice = true
      ∧ (renderCitationPanel (mkCitationCounts (some d))).unavailableNotice = false
      ∧ (renderCitationPanel (mkCitationCounts none)).citationsMetric = 0 := by
  refine ⟨fun h => ?_, rfl, by simp [mkCitationCounts, renderCitationPanel], rfl⟩
  have := congrArg CitationCounts.status h
  simp [mkCitationCounts] at this

/-- Claim C1, amended, witness at a concrete successful record. -/
theorem citation_unavailable_distinguishable_witness :
    mkCitationCounts none
      ≠ mkCitationCounts (some { citationCount := some 0, referenceCount := some 0,
                                 references := some [] }) :=
  (citation_unavailable_distinguishable
    { citationCount := some 0, referenceCount := some 0, references := some [] }).1

/-- Claim C2, counterexample.  The claim says a well-formed entry survives
a malformed neighbour, but `ArxivAPI.search_papers` wraps the whole entry
loop in one `try`/`except` (src/app.py:95-119): with the batch
`[okEntry, badEntry]`, the well-formed `okEntry` is discarded too and the
call returns `[]` instead of the claimed one-paper list. -/
theorem malformed_entry_empties_batch :
    ArxivAPI.search_papers (.ok [okEntry, badEntry]) = []
      ∧ (extractEntry okEntry).isSome = true := by
  decide

/-- Claim C2, amended.  A missing required field in any entry of the batch
is caught at the batch level, not the entry level: the whole call returns
the empty list, dropping the well-formed entries along with the malformed
one. -/
theorem malformed_entry_aborts_whole_call (entries : List Entry)
    (h : ∃ e ∈ entries, extractEntry e = none) :
    ArxivAPI.search_papers (.ok entries) = [] := by
  obtain ⟨e, hmem, he⟩ := h
  simp [ArxivAPI.search_papers, extractAll_eq_none hmem he]

/-- Claim C2, amended, witness on a concrete two-entry batch. -/
theorem malformed_entry_aborts_whole_call_witness :
    ArxivAPI.search_papers (.ok [okEntry, badEntry]) = [] :=
  malformed_entry_aborts_whole_call [okEntry, badEntry]
    ⟨badEntry, by decide, by decide⟩

/-- Claim C3.  Whenever the Semantic Scholar lookup fails — transport
error/timeout or any non-200 status such as 404 — `get_paper_details`
returns the empty record, `get_related_works` returns the empty list, and
the `citation_counts` built from it is the degraded
`status = "Semantic Scholar unavailable"` value (the code's rendering of
`CitationInfo{available: false}`).  Both functions are total in the
embedding because the source catches every exception inside the methods
(src/app.py:125-152): no exception reaches the caller. -/
theorem enrichment_failure_degrades (r : HttpResult) (h : lookupFails r) :
    SemanticScholarAPI.get_paper_details r = none
      ∧ SemanticScholarAPI.get_related_works r = []
      ∧ mkCitationCounts (SemanticScholarAPI.get_paper_details r)
          = { citations := 0, references := 0,
              status := some "Semantic Scholar unavailable" } := by
  cases r with
  | transportError => exact ⟨rfl, rfl, rfl⟩
  | response status body =>
    have hs : status ≠ 200 := h
    simp [SemanticScholarAPI.get_paper_details, SemanticScholarAPI.get_related_works,
      hs, mkCitationCounts]

/-- Claim C3, witness at a concrete 404 response. -/
theorem enrichment_failure_degrades_witness :
    SemanticScholarAPI.get_paper_details (.response 404 none) = none
      ∧ SemanticScholarAPI.get_related_works (.response 404 none) = []
      ∧ mkCitationCounts (SemanticScholarAPI.get_paper_details (.response 404 none))
          = { citations := 0, references := 0,
              status := some "Semantic Scholar unavailable" } :=
  enrichment_failure_degrades (.response 404 none) (by decide : (404 : Nat) ≠ 200)

/-- Claim C4.  The two hard stops of `ResearchAPI.search_papers`
(src/app.py:316-326) do no wasted external work: an empty query returns
`None` with the validation error and zero calls of any kind; a query whose
arXiv search yields no papers returns `None` after the single arXiv call,
with zero Semantic Scholar and zero Groq calls. -/
theorem search_hard_stops :
    (∀ env : Env,
      ResearchAPI.search_papers "" env
        = (none, ⟨0, 0, 0, ["Query is required"]⟩))
      ∧ ∀ (q : String) (env : Env), q ≠ "" →
          ArxivAPI.search_papers env.arxivResp = [] →
          ResearchAPI.search_papers q env
            = (none, ⟨1, 0, 0, ["No papers found for the given query"]⟩) := by
  constructor
  · intro env
    simp [ResearchAPI.search_papers]
  · intro q env hq hp
    simp [ResearchAPI.search_papers, hq, hp]

/-- Claim C4, witness: the empty query against a fully working
environment, and a non-empty query against a failing arXiv feed. -/
theorem search_hard_stops_witness :
    ResearchAPI.search_papers "" okEnv
        = (none, ⟨0, 0, 0, ["Query is required"]⟩)
      ∧ ResearchAPI.search_papers "quantum computing" failEnv
          = (none, ⟨1, 0, 0, ["No papers found for the given query"]⟩) :=
  ⟨search_hard_stops.1 okEnv,
   search_hard_stops.2 "quantum computing" failEnv (by decide) (by decide)⟩

/-- Claim C5.  `GroqAI.extract_keywords` parses the completion text by
splitting on commas, stripping each piece, dropping the pieces that strip
to empty, preserving order (src/app.py:239-240); on the spec's example it
yields exactly `["ml", "AI", "robotics"]`. -/
theorem extract_keywords_parsing :
    GroqAI.extract_keywords (.ok "  ml,  AI ,, robotics") = ["ml", "AI", "robotics"]
      ∧ ∀ s : String, GroqAI.extract_keywords (.ok s)
          = ((pySplit ',' s).map pyStrip).filter fun t => t != "" := by
  constructor
  · decide
  · intro s
    show GroqAI.splitKeywords s = _
    exact keywords_filterMap_eq (pySplit ',' s)

/-- Claim C5, witness on a second concrete reply. -/
theorem extract_keywords_parsing_witness :
    GroqAI.extract_keywords (.ok " a ,b, ") = ["a", "b"] :=
  (extract_keywords_parsing.2 " a ,b, ").trans (by decide)

/-- Claim C6.  For a non-empty query whose arXiv feed parses to at least
one paper, the pipeline returns a result whose `papers` list is exactly
the extracted feed, in feed order, hence of length between 1 and 5.  The
upper bound reflects the request boundary: the call asks arXiv for
`max_results=5` (src/app.py:322) and the feed honors the requested limit
(the code itself performs no truncation), hence the hypothesis that the
feed has at most 5 entries. -/
theorem bundle_papers_bounded (q : String) (env : Env) (entries : List Entry)
    (ps : List Paper) (hq : q ≠ "") (hresp : env.arxivResp = .ok entries)
    (hparse : extractAll entries = some ps) (hne : ps ≠ [])
    (hlim : entries.length ≤ 5) :
    ∃ b : SearchResult, (ResearchAPI.search_papers q env).1 = some b
      ∧ 1 ≤ b.papers.length ∧ b.papers.length ≤ 5 ∧ b.papers = ps := by
  have hsearch : ArxivAPI.search_papers env.arxivResp = ps := by
    rw [hresp]
    simp [ArxivAPI.search_papers, hparse]
  have hne' : ArxivAPI.search_papers env.arxivResp ≠ [] := by
    rw [hsearch]
    exact hne
  have hres := congrArg Prod.fst (search_papers_success q env hq hne')
  rw [hsearch] at hres
  refine ⟨_, hres, ?_, ?_, rfl⟩
  · show 1 ≤ ps.length
    exact List.length_pos.mpr hne
  · show ps.length ≤ 5
    rw [extractAll_length hparse]
    exact hlim

/-- Claim C6, witness on a one-entry feed. -/
theorem bundle_papers_bounded_witness :
    ∃ b : SearchResult, (ResearchAPI.search_papers "transformers" okEnv).1 = some b
      ∧ 1 ≤ b.papers.length ∧ b.papers.length ≤ 5 ∧ b.papers = [okPaper] :=
  bundle_papers_bounded "transformers" okEnv [okEntry] [okPaper]
    (by decide) rfl (by decide) (by decide) (by decide)

/-- Claim C7.  Each of the five analysis fields of the result is a
function of its own Groq call's outcome alone, and the bundle is built
whatever those five outcomes are (src/app.py:352-368); a failed call
degrades to its sentinel error string — `[]` for keywords — per the
per-method handlers of src/app.py:154-308.  Together: one call's failure
affects neither the other four fields nor bundle construction. -/
theorem analysis_failures_isolated (q : String) (env : Env) (hq : q ≠ "")
    (hp : ArxivAPI.search_papers env.arxivResp ≠ []) :
    (∃ b : SearchResult, (ResearchAPI.search_papers q env).1 = some b
      ∧ b.ai_summary = GroqAI.summarize_papers env.summaryOutcome
      ∧ b.explain_like_15 = GroqAI.explain_like_15 env.explainOutcome
      ∧ b.keywords = GroqAI.extract_keywords env.keywordsOutcome
      ∧ b.trends = GroqAI.analyze_trends env.trendsOutcome
      ∧ b.open_challenges = GroqAI.identify_challenges env.challengesOutcome)
      ∧ (∀ e, GroqAI.summarize_papers (.error e) = "Error generating summary: " ++ e)
      ∧ (∀ e, GroqAI.explain_like_15 (.error e) = "Error generating explanation: " ++ e)
      ∧ (∀ e, GroqAI.extract_keywords (.error e) = [])
      ∧ (∀ e, GroqAI.analyze_trends (.error e) = "Error analyzing trends: " ++ e)
      ∧ (∀ e, GroqAI.identify_challenges (.error e) = "Error identifying challenges: " ++ e) := by
  have hres := congrArg Prod.fst (search_papers_success q env hq hp)
  exact ⟨⟨_, hres, rfl, rfl, rfl, rfl, rfl⟩,
    fun e => rfl, fun e => rfl, fun e => rfl, fun e => rfl, fun e => rfl⟩

/-- Claim C7, witness: only the summarization call fails; the other four
fields carry their successful contents and the bundle is still built. -/
theorem analysis_failures_isolated_witness :
    ∃ b : SearchResult, (ResearchAPI.search_papers "transformers" degradedEnv).1 = some b
      ∧ b.ai_summary = "Error generating summary: Request timed out"
      ∧ b.explain_like_15 = "Simple words."
      ∧ b.keywords = ["attention", "transformers"]
      ∧ b.trends = "Trends."
      ∧ b.open_challenges = "Challenges." := by
  obtain ⟨⟨b, hb, h1, h2, h3, h4, h5⟩, -⟩ :=
    analysis_failures_isolated "transformers" degradedEnv (by decide) (by decide)
  exact ⟨b, hb, by rw [h1]; decide, by rw [h2]; decide, by rw [h3]; decide,
    by rw [h4]; decide, by rw [h5]; decide⟩

/-- Claim C8.  `ResearchAPI.export_results` reads only the query and the
result dict — the embedding gives it no `Env`, reflecting that the source
(src/app.py:375-434) performs no external call — so two calls on the same
inputs return byte-identical content and filename. -/
theorem export_results_deterministic (q : String) (sr : SearchResult)
    (out₁ out₂ : String × String)
    (h₁ : ResearchAPI.export_results q sr = out₁)
    (h₂ : ResearchAPI.export_results q sr = out₂) : out₁ = out₂ := by
  rw [← h₁, ← h₂]

/-- Claim C8, witness: two exports of the same bundle coincide. -/
theorem export_results_deterministic_witness :
    ResearchAPI.export_results "deep learning" sampleResult
      = ResearchAPI.export_results "deep learning" sampleResult :=
  export_results_deterministic "deep learning" sampleResult _ _ rfl rfl

/-- Claim C9.  The suggested filename is always
`research_summary_` + the query with every space turned into an
underscore + `.md` (src/app.py:429), and the query `"deep learning"`
yields `research_summary_deep_learning.md`. -/
theorem export_filename_rule :
    (∀ (q : String) (sr : SearchResult),
      (ResearchAPI.export_results q sr).2
        = "research_summary_" ++ ResearchAPI.replaceSpaces q ++ ".md")
      ∧ (ResearchAPI.export_results "deep learning" sampleResult).2
          = "research_summary_deep_learning.md" :=
  ⟨fun _ _ => rfl, by decide⟩

/-- Claim C9, witness on a second concrete query. -/
theorem export_filename_rule_witness :
    (ResearchAPI.export_results "a b c" sampleResult).2
      = "research_summary_a_b_c.md" :=
  (export_filename_rule.1 "a b c" sampleResult).trans (by decide)

/-- Claim C10.  Every non-`None` result of `ResearchAPI.search_papers` is
the eight-field `SearchResult` record (the type of the embedding is
exactly the dict literal of src/app.py:359-368, so all eight fields are
always present), and its `papers` field is the non-empty arXiv result
list. -/
theorem search_result_shape (q : String) (env : Env) (b : SearchResult)
    (h : (ResearchAPI.search_papers q env).1 = some b) :
    b.papers ≠ [] ∧ b.papers = ArxivAPI.search_papers env.arxivResp := by
  by_cases hq : q = ""
  · simp [ResearchAPI.search_papers, hq] at h
  · by_cases hp : ArxivAPI.search_papers env.arxivResp = []
    · simp [ResearchAPI.search_papers, hq, hp] at h
    · simp [ResearchAPI.search_papers, hq, hp] at h
      constructor
      · rw [← h]
        exact hp
      · rw [← h]

/-- Claim C10, witness at the concrete successful environment. -/
theorem search_result_shape_witness :
    okSearchResult.papers ≠ []
      ∧ okSearchResult.papers = ArxivAPI.search_papers okEnv.arxivResp :=
  search_result_shape "transformers" okEnv okSearchResult (by decide)

end App
